import Mathlib

/-!
Verification of the overlay click-through window program
(src/from_home/clickthrough.c) against its specification.

The repository contains a single straight-line X11 client. We embed it
shallowly: the requests that main issues to the windowing server form a
trace (a list of requests), and the effect of each request on the server
is a state transition on an explicit server state. The client side
(which requests are issued, with which arguments, in which order) is
translated line by line from the C source. The server side is not part
of the repository; where a claim depends on how the server interprets a
request, the transition is modelled from the words of the specification
and marked as such in its doc comment.
-/

namespace Clickthrough

/-! Protocol constants, copied from the X11 headers X.h and shape.h used
by the source file. -/

/-- TrueColor visual class, from X.h. -/
def TrueColor : Nat := 4

/-- InputOutput window class, from X.h. -/
def InputOutput : Nat := 1

/-- AllocNone colormap allocation policy, from X.h. -/
def AllocNone : Nat := 0

/-- The X resource id None (written XNone here because None is taken). -/
def XNone : Nat := 0

/-- CWBackPixel attribute-mask bit, from X.h. -/
def CWBackPixel : Nat := 2

/-- CWBorderPixel attribute-mask bit, from X.h. -/
def CWBorderPixel : Nat := 8

/-- CWOverrideRedirect attribute-mask bit, from X.h. -/
def CWOverrideRedirect : Nat := 512

/-- CWColormap attribute-mask bit, from X.h. -/
def CWColormap : Nat := 8192

/-- ShapeBounding shape kind, from shape.h. -/
def ShapeBounding : Nat := 0

/-- ShapeClip shape kind, from shape.h. -/
def ShapeClip : Nat := 1

/-- ShapeInput shape kind, from shape.h. -/
def ShapeInput : Nat := 2

/-- ShapeSet shape operation, from shape.h. -/
def ShapeSet : Nat := 0

/-- ShapeUnion shape operation, from shape.h. -/
def ShapeUnion : Nat := 1

/-- ShapeIntersect shape operation, from shape.h. -/
def ShapeIntersect : Nat := 2

/-- ShapeSubtract shape operation, from shape.h. -/
def ShapeSubtract : Nat := 3

/-- ShapeInvert shape operation, from shape.h. -/
def ShapeInvert : Nat := 4

/-- A visual format on the server: id, bit depth and color class
(the fields of XVisualInfo that the program reads). -/
structure VisualInfo where
  visualID : Nat
  depth : Nat
  visualClass : Nat
  deriving Repr, DecidableEq

/-- The server environment the program runs against: the width of the
default screen, the list of visuals the screen offers, and whether the
server supports the nonrectangular-shape extension. -/
structure ServerConfig where
  displayWidth : Nat
  visuals : List VisualInfo
  shapeExtension : Bool
  deriving Repr, DecidableEq

/-- Xlib XMatchVisualInfo: search the screen for a visual with the given
depth and class. On failure it returns status 0 and leaves the
caller-supplied XVisualInfo buffer untouched; we model the result as an
Option. -/
def XMatchVisualInfo (cfg : ServerConfig) (depth visualClass : Nat) :
    Option VisualInfo :=
  cfg.visuals.find? (fun v => v.depth == depth && v.visualClass == visualClass)

/-- The contents of the stack variable vinfo after the XMatchVisualInfo
call in main. The source ignores the returned Status, so when no visual
matches, the uninitialized stack contents (junk) are what the rest of
main reads. -/
def vinfoAfterMatch (cfg : ServerConfig) (junk : VisualInfo) : VisualInfo :=
  match XMatchVisualInfo cfg 32 TrueColor with
  | some v => v
  | none => junk

/-- A screen rectangle: position and size, as in the source (x, y signed;
width, height unsigned). -/
structure Rect where
  x : Int
  y : Int
  w : Nat
  h : Nat
  deriving Repr, DecidableEq

/-- Membership of a pixel in a rectangle. -/
def rectContains (r : Rect) (px py : Int) : Bool :=
  decide (r.x ≤ px) && decide (px < r.x + r.w) &&
  decide (r.y ≤ py) && decide (py < r.y + r.h)

/-- A region: the set of pixels it contains, as a boolean predicate. -/
def Region : Type := Int → Int → Bool

/-- The empty region: no pixel accepted. -/
def emptyRegion : Region := fun _ _ => false

/-- The region of all pixels of a rectangle. -/
def rectRegion (r : Rect) : Region := fun px py => rectContains r px py

/-- The two drawables main ever names: the root window and the window it
creates. -/
inductive Drawable
  | root
  | win
  deriving Repr, DecidableEq

/-- A colormap as created by XCreateColormap: the drawable it was created
on, the visual it is bound to, and the allocation policy. -/
structure ColormapSpec where
  drawable : Drawable
  visualID : Nat
  alloc : Nat
  deriving Repr, DecidableEq

/-- The XSetWindowAttributes fields that main fills in before
XCreateWindow. -/
structure SetWindowAttributes where
  colormap : ColormapSpec
  background_pixel : Nat
  border_pixel : Nat
  override_redirect : Bool
  deriving Repr, DecidableEq

/-- A content item recorded on the window by a drawing request. -/
inductive ContentItem
  | rect (x y : Int) (w h : Nat) (color : Nat)
  | text (x y : Int) (s : String) (color : Nat)
  deriving Repr, DecidableEq

/-- The requests (and local pauses and status prints) main performs, in
the order of the source. Each constructor mirrors one Xlib call or libc
call of the source. -/
inductive Req
  | createColormap (cmap : ColormapSpec)
  | createWindow (x y : Int) (w h : Nat) (borderWidth : Nat) (depth : Nat)
      (winClass : Nat) (visualID : Nat) (valuemask : Nat)
      (attrs : SetWindowAttributes)
  | storeName (s : String)
  | mapWindow
  | flush
  | printLine (s : String)
  | sleepSecs (n : Nat)
  | shapeCombineMask (kind : Nat) (xOff yOff : Int) (pixmap : Nat) (op : Nat)
  | createGC
  | setForeground (c : Nat)
  | fillRectangle (x y : Int) (w h : Nat)
  | drawString (x y : Int) (s : String) (len : Nat)
  deriving Repr, DecidableEq

/-- The server-side state of the one window the program creates. The
window keeps the creation arguments verbatim, plus the mutable parts:
its name, whether it is mapped, its two shape regions (none meaning the
default shape, which for either kind is the full window rectangle), and
the content drawn into it. -/
structure WindowState where
  geom : Rect
  borderWidth : Nat
  depth : Nat
  winClass : Nat
  visualID : Nat
  valuemask : Nat
  attrs : SetWindowAttributes
  name : String
  mapped : Bool
  inputShape : Option Region
  boundingShape : Option Region
  content : List ContentItem

/-- The full server state the program interacts with: the environment,
the single window (none before creation), and the foreground color of
the graphics context (none before XCreateGC). -/
structure SState where
  cfg : ServerConfig
  window : Option WindowState
  gcForeground : Option Nat

/-- The region a shape field denotes: an explicitly set region, or the
default shape, which is the full window rectangle. -/
def regionOfShape (g : Rect) (o : Option Region) : Region :=
  o.getD (rectRegion g)

/-- Modelled from the spec: the region denoted by the pixmap argument of
a ShapeMask request. The program creates no pixmaps, so the only pixmap
id it can pass is None, which the spec describes as applying an empty
input-shape region (spec, setClickThrough: applies an empty input-shape
region to the input shape kind of the window). -/
def pixmapRegion (_pixmap : Nat) : Region := fun _ _ => false

/-- Modelled from the spec: how a shape operation combines the existing
region of the addressed kind with the incoming one. The program only
ever uses ShapeSet, which replaces the region outright. -/
def combineRegion (op : Nat) (old inc : Region) : Region :=
  if op = ShapeSet then inc
  else if op = ShapeUnion then fun x y => old x y || inc x y
  else if op = ShapeIntersect then fun x y => old x y && inc x y
  else if op = ShapeSubtract then fun x y => old x y && !(inc x y)
  else if op = ShapeInvert then fun x y => inc x y && !(old x y)
  else old

/-- Modelled from the spec: the effect of a ShapeMask request on the
window. Only the shape field of the addressed kind changes; the other
kind is untouched (spec: the input shape is distinct from the bounding
shape and only the input shape controls pointer delivery). -/
def applyShape (w : WindowState) (kind : Nat) (pixmap : Nat) (op : Nat) :
    WindowState :=
  if kind = ShapeInput then
    let r := combineRegion op (regionOfShape w.geom w.inputShape) (pixmapRegion pixmap)
    { w with inputShape := some r }
  else if kind = ShapeBounding then
    let r := combineRegion op (regionOfShape w.geom w.boundingShape) (pixmapRegion pixmap)
    { w with boundingShape := some r }
  else w

/-- The server transition for one request. Colormap creation, flushes,
pauses and prints do not change the modelled state; window creation
installs the window with its creation arguments; ShapeMask requests are
interpreted only when the server has the shape extension (otherwise the
request has no interpreter and nothing happens); drawing requests append
content items colored with the current graphics-context foreground. -/
def applyReq (s : SState) : Req → SState
  | .createColormap _ => s
  | .createWindow x y w h bw depth winClass visualID valuemask attrs =>
      let wst : WindowState :=
        { geom := { x := x, y := y, w := w, h := h },
          borderWidth := bw, depth := depth, winClass := winClass,
          visualID := visualID, valuemask := valuemask, attrs := attrs,
          name := "", mapped := false, inputShape := none,
          boundingShape := none, content := [] }
      { s with window := some wst }
  | .storeName nm =>
      { s with window := s.window.map (fun w => { w with name := nm }) }
  | .mapWindow =>
      { s with window := s.window.map (fun w => { w with mapped := true }) }
  | .flush => s
  | .printLine _ => s
  | .sleepSecs _ => s
  | .shapeCombineMask kind _ _ pixmap op =>
      if s.cfg.shapeExtension then
        { s with window := s.window.map (fun w => applyShape w kind pixmap op) }
      else s
  | .createGC => { s with gcForeground := some 0 }
  | .setForeground c => { s with gcForeground := some c }
  | .fillRectangle x y w h =>
      { s with window := s.window.map (fun wst =>
          { wst with content := wst.content ++
              [ContentItem.rect x y w h (s.gcForeground.getD 0)] }) }
  | .drawString x y str len =>
      { s with window := s.window.map (fun wst =>
          { wst with content := wst.content ++
              [ContentItem.text x y (str.take len) (s.gcForeground.getD 0)] }) }

/-- Running a request trace from a state. -/
def run (s : SState) (l : List Req) : SState :=
  l.foldl applyReq s

/-- The state of the server before the program issues any request. -/
def initState (cfg : ServerConfig) : SState :=
  { cfg := cfg, window := none, gcForeground := none }

/-! The trace of main, translated line by line from the source. -/

/-- Window width, from the source: int width = 200. -/
def width : Nat := 200

/-- Window height, from the source: int height = 200. -/
def height : Nat := 200

/-- Window x position, from the source:
int x = DisplayWidth(display, screen) - width - 50. -/
def xPos (cfg : ServerConfig) : Int :=
  (cfg.displayWidth : Int) - width - 50

/-- Window y position, from the source: int y = 50. -/
def yPos : Int := 50

/-- The attribute mask passed to XCreateWindow, from the source:
CWColormap, CWBackPixel, CWBorderPixel and CWOverrideRedirect ored
together. -/
def valuemask : Nat :=
  CWColormap ||| CWBackPixel ||| CWBorderPixel ||| CWOverrideRedirect

/-- The window title passed to XStoreName. -/
def windowTitle : String := "C ClickThrough Test"

/-- The text passed to XDrawString. -/
def drawText : String := "Click Through Test"

/-- Status line printed after mapping. -/
def msgWindowCreated : String := "Window created at (x, y) size wxh"

/-- Status line printing the window id. -/
def msgWindowId : String := "Window ID"

/-- Status line printed before the shape request. -/
def msgApplying : String := "Applying click-through with Shape extension..."

/-- Status line printed after the shape request. -/
def msgApplied : String := "Click-through applied - input shape removed"

/-- Status line printed after painting. -/
def msgVisible : String := "Window should be visible and click-through"

/-- Final status line before the keep-alive loop. -/
def msgPressCtrlC : String := "Press Ctrl+C to exit"

/-- The colormap main creates: XCreateColormap(display, root,
vinfo.visual, AllocNone). -/
def colormapOf (cfg : ServerConfig) (junk : VisualInfo) : ColormapSpec :=
  { drawable := Drawable.root
    visualID := (vinfoAfterMatch cfg junk).visualID
    alloc := AllocNone }

/-- The attribute block main fills in: attrs.colormap, background_pixel
0, border_pixel 0, override_redirect True. -/
def attrsOf (cfg : ServerConfig) (junk : VisualInfo) : SetWindowAttributes :=
  { colormap := colormapOf cfg junk
    background_pixel := 0
    border_pixel := 0
    override_redirect := true }

/-- The XCreateWindow request of main: position and size as computed,
border width 0, depth and visual from vinfo, class InputOutput, and the
four-flag valuemask with the attribute block. -/
def createWindowReq (cfg : ServerConfig) (junk : VisualInfo) : Req :=
  Req.createWindow (xPos cfg) yPos width height 0
    (vinfoAfterMatch cfg junk).depth InputOutput
    (vinfoAfterMatch cfg junk).visualID valuemask (attrsOf cfg junk)

/-- The window rectangle main requests, assembled from its geometry
computation. -/
def geomOf (cfg : ServerConfig) : Rect :=
  { x := xPos cfg, y := yPos, w := width, h := height }

/-- The colormap main would build from an uninitialized vinfo value. -/
def junkColormap (junk : VisualInfo) : ColormapSpec :=
  { drawable := Drawable.root, visualID := junk.visualID, alloc := AllocNone }

/-- The attribute block the spec prescribes for a chosen visual: a
root-window AllocNone colormap bound to that visual, transparent
background pixel, border pixel 0 and the override-redirect flag. -/
def expectedAttrs (v : VisualInfo) : SetWindowAttributes :=
  { colormap := { drawable := Drawable.root, visualID := v.visualID, alloc := AllocNone }
    background_pixel := 0
    border_pixel := 0
    override_redirect := true }

/-- The request trace of main from after the XOpenDisplay check up to the
keep-alive loop, in source order. The keep-alive loop at the end of main
only sleeps and issues no further request, so the trace below is the
whole interaction of the program with the server. -/
def mainTrace (cfg : ServerConfig) (junk : VisualInfo) : List Req :=
  [ Req.createColormap (colormapOf cfg junk),
    createWindowReq cfg junk,
    Req.storeName windowTitle,
    Req.mapWindow,
    Req.flush,
    Req.printLine msgWindowCreated,
    Req.printLine msgWindowId,
    Req.sleepSecs 1,
    Req.printLine msgApplying,
    Req.shapeCombineMask ShapeInput 0 0 XNone ShapeSet,
    Req.flush,
    Req.printLine msgApplied,
    Req.createGC,
    Req.setForeground 0xFFFF0000,
    Req.fillRectangle 0 0 width height,
    Req.setForeground 0xFFFFFFFF,
    Req.drawString 50 100 drawText 18,
    Req.flush,
    Req.printLine msgVisible,
    Req.printLine msgPressCtrlC ]

/-- The server state after main has issued its whole trace. -/
def finalState (cfg : ServerConfig) (junk : VisualInfo) : SState :=
  run (initState cfg) (mainTrace cfg junk)

/-- The server state right after the click-through phase of main (the
trace up to and including the flush that follows the ShapeMask
request). -/
def afterClickThrough (cfg : ServerConfig) (junk : VisualInfo) : SState :=
  run (initState cfg) ((mainTrace cfg junk).take 11)

/-- The click-through operation exactly as main performs it: one
ShapeMask request on the input shape kind with offset (0, 0), no pixmap
and the set operation, followed by a flush. -/
def setClickThrough (s : SState) : SState :=
  run s [Req.shapeCombineMask ShapeInput 0 0 XNone ShapeSet, Req.flush]

/-- Whether a window of this state would be handed a pointer event at a
screen pixel: it must be mapped, the pixel must lie in its rectangle,
and the pixel must lie in its effective input region. -/
def SState.acceptsInput (s : SState) (px py : Int) : Bool :=
  match s.window with
  | none => false
  | some w =>
      w.mapped && rectContains w.geom px py &&
        regionOfShape w.geom w.inputShape px py

/-- Whether a pixel belongs to the visible silhouette of the window: it
must be mapped, the pixel must lie in its rectangle and in its effective
bounding region. -/
def SState.visibleAt (s : SState) (px py : Int) : Bool :=
  match s.window with
  | none => false
  | some w =>
      w.mapped && rectContains w.geom px py &&
        regionOfShape w.geom w.boundingShape px py

/-- The requests of the paint phase: graphics-context creation,
foreground selection, rectangle fills and string draws. -/
def isPaintReq : Req → Bool
  | .createGC => true
  | .setForeground _ => true
  | .fillRectangle _ _ _ _ => true
  | .drawString _ _ _ _ => true
  | _ => false

/-- The setup phases of the spec state machine. -/
inductive Phase
  | unborn
  | created
  | mapped
  | clickThroughApplied
  | painted
  deriving Repr, DecidableEq

/-- Position of a phase along the forward direction of the spec state
machine. -/
def phaseIdx : Phase → Nat
  | .unborn => 0
  | .created => 1
  | .mapped => 2
  | .clickThroughApplied => 3
  | .painted => 4

/-- The phase a server state is in: no window yet, window created but not
mapped, mapped with its default input shape, input shape applied but
nothing drawn, or content drawn. -/
def SState.phase (s : SState) : Phase :=
  match s.window with
  | none => Phase.unborn
  | some w =>
      if !w.mapped then Phase.created
      else
        match w.inputShape with
        | none => Phase.mapped
        | some _ =>
            if w.content.isEmpty then Phase.clickThroughApplied
            else Phase.painted

/-- The phases the server state passes through along the trace of main,
one entry per prefix of the trace. -/
def phasesAlong (cfg : ServerConfig) (junk : VisualInfo) : List Phase :=
  (List.scanl applyReq (initState cfg) (mainTrace cfg junk)).map SState.phase

/-- The phase sequence the happy path is expected to produce. -/
def expectedPhases : List Phase :=
  [ Phase.unborn, Phase.unborn,
    Phase.created, Phase.created,
    Phase.mapped, Phase.mapped, Phase.mapped, Phase.mapped, Phase.mapped,
    Phase.mapped,
    Phase.clickThroughApplied, Phase.clickThroughApplied,
    Phase.clickThroughApplied, Phase.clickThroughApplied,
    Phase.clickThroughApplied,
    Phase.painted, Phase.painted, Phase.painted, Phase.painted,
    Phase.painted, Phase.painted ]

/-- The alpha byte of a 32-bit ARGB pixel value: the top 8 bits. -/
def alphaByte (p : Nat) : Nat := p / 2 ^ 24 % 256

/-- A 32-bit true-color visual, for concrete instantiations. -/
def demoVisual : VisualInfo :=
  { visualID := 33, depth := 32, visualClass := TrueColor }

/-- An arbitrary value standing for uninitialized stack contents. -/
def demoJunk : VisualInfo :=
  { visualID := 99, depth := 8, visualClass := 0 }

/-- A server with an alpha visual and the shape extension. -/
def demoConfig : ServerConfig :=
  { displayWidth := 1920, visuals := [demoVisual], shapeExtension := true }

/-- A server with an alpha visual but no shape extension. -/
def demoNoShape : ServerConfig :=
  { displayWidth := 1920, visuals := [demoVisual], shapeExtension := false }

/-- A server whose only visual is 24-bit, so no 32-bit true-color visual
exists. -/
def demoNoVisual : ServerConfig :=
  { displayWidth := 1920
    visuals := [{ visualID := 40, depth := 24, visualClass := TrueColor }]
    shapeExtension := true }

/-- The extra paint batch used to witness that even an opaque full-window
red fill leaves click-through intact. -/
def demoExtra : List Req :=
  [Req.setForeground 0xFFFF0000, Req.fillRectangle 0 0 width height]

/-! Helper lemmas shared by the claim theorems. -/

/-- A paint request never changes the input shape of the window of any
state. -/
theorem applyReq_paint_inputShape (s : SState) (r : Req)
    (hr : isPaintReq r = true) :
    (applyReq s r).window.map WindowState.inputShape
      = s.window.map WindowState.inputShape := by
  cases r with
  | createGC => rfl
  | setForeground c => rfl
  | fillRectangle x y w h => cases hw : s.window <;> simp [applyReq, hw]
  | drawString x y str len => cases hw : s.window <;> simp [applyReq, hw]
  | createColormap cm => simp [isPaintReq] at hr
  | createWindow x y w h bw d wc vid vm a => simp [isPaintReq] at hr
  | storeName nm => simp [isPaintReq] at hr
  | mapWindow => simp [isPaintReq] at hr
  | flush => simp [isPaintReq] at hr
  | printLine m => simp [isPaintReq] at hr
  | sleepSecs n => simp [isPaintReq] at hr
  | shapeCombineMask k xo yo p o => simp [isPaintReq] at hr

/-- A run consisting only of paint requests never changes the input shape
of the window. -/
theorem run_paint_inputShape (extra : List Req)
    (hextra : ∀ r ∈ extra, isPaintReq r = true) (s : SState) :
    (run s extra).window.map WindowState.inputShape
      = s.window.map WindowState.inputShape := by
  induction extra generalizing s with
  | nil => rfl
  | cons r rs ih =>
      have h1 := applyReq_paint_inputShape s r (hextra r (by simp))
      have h2 := ih (fun q hq => hextra q (by simp [hq])) (applyReq s r)
      exact h2.trans h1

/-- A state whose window has the empty input region accepts pointer input
nowhere. -/
theorem acceptsInput_of_empty (s : SState)
    (hw : s.window.map WindowState.inputShape = some (some emptyRegion))
    (px py : Int) : s.acceptsInput px py = false := by
  cases hwin : s.window with
  | none => rw [hwin] at hw; simp at hw
  | some w =>
      rw [hwin] at hw
      simp only [Option.map_some'] at hw
      injection hw with hw
      simp [SState.acceptsInput, hwin, hw, regionOfShape, emptyRegion]

/-- A mapped window with the default bounding shape is visible exactly on
its rectangle. -/
theorem visibleAt_eval (s : SState) (g : Rect)
    (h1 : s.window.map WindowState.mapped = some true)
    (h2 : s.window.map WindowState.boundingShape = some none)
    (h3 : s.window.map WindowState.geom = some g) (px py : Int) :
    s.visibleAt px py = rectContains g px py := by
  cases hw : s.window with
  | none => rw [hw] at h1; simp at h1
  | some w =>
      rw [hw] at h1 h2 h3
      simp only [Option.map_some'] at h1 h2 h3
      injection h1 with h1
      injection h2 with h2
      injection h3 with h3
      simp [SState.visibleAt, hw, h1, h2, h3, regionOfShape, rectRegion,
        Bool.and_self]

/-- On a server with the shape extension, the run of main ends with the
empty input region installed. -/
theorem finalState_inputShape (cfg : ServerConfig) (junk : VisualInfo)
    (h : cfg.shapeExtension = true) :
    (finalState cfg junk).window.map WindowState.inputShape
      = some (some emptyRegion) := by
  obtain ⟨dw, vis, ext⟩ := cfg
  cases ext
  case false => simp at h
  case true => rfl

/-! Claim theorems. -/

/-- C7: the reference geometry anchors the window near the top-right
screen corner with a fixed inset: the XCreateWindow request of the trace
of main carries x = displayWidth - 250, y = 50, width = 200 and
height = 200, where displayWidth is the width of the default screen. -/
theorem window_geometry (cfg : ServerConfig) (junk : VisualInfo) :
    xPos cfg = (cfg.displayWidth : Int) - 250 ∧ yPos = 50 ∧
    width = 200 ∧ height = 200 ∧
    (mainTrace cfg junk)[1]? = some (createWindowReq cfg junk) ∧
    createWindowReq cfg junk =
      Req.createWindow (xPos cfg) yPos width height 0
        (vinfoAfterMatch cfg junk).depth InputOutput
        (vinfoAfterMatch cfg junk).visualID valuemask (attrsOf cfg junk) := by
  refine ⟨?_, rfl, rfl, rfl, rfl, rfl⟩
  simp only [xPos, width]
  omega

/-- C9: the trace of main flushes right after window creation plus map,
right after the input-shape application, and right after the paint
batch. -/
theorem flush_after_each_phase (cfg : ServerConfig) (junk : VisualInfo) :
    (mainTrace cfg junk)[1]? = some (createWindowReq cfg junk) ∧
    (mainTrace cfg junk)[3]? = some Req.mapWindow ∧
    (mainTrace cfg junk)[4]? = some Req.flush ∧
    (mainTrace cfg junk)[9]?
      = some (Req.shapeCombineMask ShapeInput 0 0 XNone ShapeSet) ∧
    (mainTrace cfg junk)[10]? = some Req.flush ∧
    (mainTrace cfg junk)[16]? = some (Req.drawString 50 100 drawText 18) ∧
    (mainTrace cfg junk)[17]? = some Req.flush :=
  ⟨rfl, rfl, rfl, rfl, rfl, rfl, rfl⟩

/-- C10: for every server environment and every (even uninitialized)
visual value, the colormap request of main is made on the root window
with AllocNone and the very visual later passed to XCreateWindow, so the
colormap/visual pairing at window creation is always consistent. -/
theorem colormap_visual_consistent (cfg : ServerConfig) (junk : VisualInfo) :
    (mainTrace cfg junk)[0]? = some (Req.createColormap (colormapOf cfg junk)) ∧
    (colormapOf cfg junk).drawable = Drawable.root ∧
    (colormapOf cfg junk).alloc = AllocNone ∧
    (colormapOf cfg junk).visualID = (vinfoAfterMatch cfg junk).visualID ∧
    (attrsOf cfg junk).colormap = colormapOf cfg junk ∧
    createWindowReq cfg junk =
      Req.createWindow (xPos cfg) yPos width height 0
        (vinfoAfterMatch cfg junk).depth InputOutput
        (vinfoAfterMatch cfg junk).visualID valuemask (attrsOf cfg junk) :=
  ⟨rfl, rfl, rfl, rfl, rfl, rfl⟩

/-- C8: the click-through operation of main is idempotent on every server
state: applying it twice yields exactly the state of applying it once. -/
theorem setClickThrough_idempotent (s : SState) :
    setClickThrough (setClickThrough s) = setClickThrough s := by
  cases hc : s.cfg.shapeExtension <;> cases hw : s.window <;>
    simp [setClickThrough, run, applyReq, hc, hw, applyShape, combineRegion,
      ShapeInput, ShapeBounding, ShapeSet]

/-- C3 (divergence witness for the missing status check): when the server
offers no 32-bit true-color visual, main does not fail with
VisualUnavailable; it keeps the uninitialized stack value of vinfo and
still issues the whole 20-step setup trace, including the colormap and
window creation built from that uninitialized value. -/
theorem missing_visual_check (cfg : ServerConfig) (junk : VisualInfo)
    (h : XMatchVisualInfo cfg 32 TrueColor = none) :
    vinfoAfterMatch cfg junk = junk ∧
    colormapOf cfg junk = junkColormap junk ∧
    (mainTrace cfg junk)[1]?
      = some (Req.createWindow (xPos cfg) yPos width height 0 junk.depth
          InputOutput junk.visualID valuemask (attrsOf cfg junk)) ∧
    (mainTrace cfg junk).length = 20 := by
  have hv : vinfoAfterMatch cfg junk = junk := by
    simp [vinfoAfterMatch, h]
  refine ⟨hv, ?_, ?_, rfl⟩
  · simp [colormapOf, junkColormap, hv]
  · simp [mainTrace, createWindowReq, hv]

/-- C4 (divergence witness for the missing extension check): when the
server lacks the shape extension, main reports no
ShapeExtensionUnavailable failure; it prints the success line and paints
anyway, while the window stays mapped with its default input shape and
still accepts pointer input over its whole rectangle. -/
theorem missing_shape_extension_check (cfg : ServerConfig)
    (junk : VisualInfo) (h : cfg.shapeExtension = false) :
    (mainTrace cfg junk)[11]? = some (Req.printLine msgApplied) ∧
    (mainTrace cfg junk)[14]? = some (Req.fillRectangle 0 0 width height) ∧
    (finalState cfg junk).window.map WindowState.mapped = some true ∧
    (finalState cfg junk).window.map WindowState.inputShape = some none ∧
    (finalState cfg junk).acceptsInput (xPos cfg) 50 = true := by
  obtain ⟨dw, vis, ext⟩ := cfg
  cases ext
  case true => simp at h
  case false =>
    refine ⟨rfl, rfl, rfl, rfl, ?_⟩
    show ((true && rectContains (geomOf ⟨dw, vis, false⟩)
        (xPos ⟨dw, vis, false⟩) 50) &&
        rectContains (geomOf ⟨dw, vis, false⟩)
        (xPos ⟨dw, vis, false⟩) 50) = true
    simp only [Bool.true_and, Bool.and_self, rectContains, geomOf, xPos, yPos,
      width, height, Bool.and_eq_true, decide_eq_true_eq]
    omega

/-- C6: under a successful visual match, main fixes the window attributes
at creation: the colormap is allocated on the root window for the chosen
32-bit true-color visual, the background pixel is 0 (alpha byte 0, fully
transparent), the border pixel and the border width argument are 0, the
override-redirect flag is set, and all four attributes are selected in
the valuemask. -/
theorem createWindow_attributes (cfg : ServerConfig) (junk v : VisualInfo)
    (h : XMatchVisualInfo cfg 32 TrueColor = some v) :
    v.depth = 32 ∧ v.visualClass = TrueColor ∧
    attrsOf cfg junk = expectedAttrs v ∧
    alphaByte (attrsOf cfg junk).background_pixel = 0 ∧
    createWindowReq cfg junk
      = Req.createWindow (xPos cfg) yPos width height 0 v.depth InputOutput
          v.visualID valuemask (attrsOf cfg junk) ∧
    valuemask.testBit 13 = true ∧ valuemask.testBit 1 = true ∧
    valuemask.testBit 3 = true ∧ valuemask.testBit 9 = true := by
  have h2 : cfg.visuals.find?
      (fun w => w.depth == 32 && w.visualClass == TrueColor) = some v := h
  have hp := List.find?_some h2
  simp only [Bool.and_eq_true, beq_iff_eq] at hp
  have hv : vinfoAfterMatch cfg junk = v := by
    simp [vinfoAfterMatch, h]
  refine ⟨hp.1, hp.2, ?_, by simp [alphaByte, attrsOf], ?_, by decide,
    by decide, by decide, by decide⟩
  · simp [attrsOf, colormapOf, expectedAttrs, hv]
  · simp [createWindowReq, hv]

/-- C2: the click-through operation touches only the input shape kind:
for every state it leaves the bounding shape untouched, and on the run
of main the state right after the click-through phase has an empty input
region, still the default bounding shape, visibility over exactly the
full window rectangle, and accepts pointer input nowhere. -/
theorem setClickThrough_input_kind_only (cfg : ServerConfig)
    (junk : VisualInfo) (h : cfg.shapeExtension = true) :
    (∀ s : SState, (setClickThrough s).window.map WindowState.boundingShape
        = s.window.map WindowState.boundingShape) ∧
    (afterClickThrough cfg junk).window.map WindowState.inputShape
      = some (some emptyRegion) ∧
    (afterClickThrough cfg junk).window.map WindowState.boundingShape
      = some none ∧
    (∀ px py, (afterClickThrough cfg junk).visibleAt px py
        = rectContains (geomOf cfg) px py) ∧
    (∀ px py, (afterClickThrough cfg junk).acceptsInput px py = false) := by
  constructor
  · intro s
    cases hc : s.cfg.shapeExtension <;> cases hw : s.window <;>
      simp [setClickThrough, run, applyReq, hc, hw, applyShape,
        ShapeInput, ShapeBounding]
  · obtain ⟨dw, vis, ext⟩ := cfg
    cases ext
    case false => simp at h
    case true =>
      refine ⟨rfl, rfl, fun px py => ?_, fun px py => ?_⟩
      · exact visibleAt_eval (afterClickThrough ⟨dw, vis, true⟩ junk)
          (geomOf ⟨dw, vis, true⟩) rfl rfl rfl px py
      · exact acceptsInput_of_empty (afterClickThrough ⟨dw, vis, true⟩ junk)
          rfl px py

/-- C5: on a shape-capable server the setup of main walks the spec state
machine strictly forward: the phase sequence along the trace is exactly
unborn, created, mapped, clickThroughApplied, painted in that order with
no revisit, and a fixed one-second pause sits strictly between the map
request and the shape application. -/
theorem setup_phases_forward (cfg : ServerConfig) (junk : VisualInfo)
    (h : cfg.shapeExtension = true) :
    phasesAlong cfg junk = expectedPhases ∧
    List.Pairwise (fun a b => phaseIdx a ≤ phaseIdx b)
      (phasesAlong cfg junk) ∧
    (mainTrace cfg junk)[3]? = some Req.mapWindow ∧
    (mainTrace cfg junk)[7]? = some (Req.sleepSecs 1) ∧
    (mainTrace cfg junk)[9]?
      = some (Req.shapeCombineMask ShapeInput 0 0 XNone ShapeSet) := by
  obtain ⟨dw, vis, ext⟩ := cfg
  cases ext
  case false => simp at h
  case true =>
    have hp : phasesAlong ⟨dw, vis, true⟩ junk = expectedPhases := rfl
    exact ⟨hp, by rw [hp]; decide, rfl, rfl, rfl⟩

/-- C1: paint and input shape are fully decoupled: every paint request
leaves the input shape of every state unchanged, and after the run of
main extended by an arbitrary batch of further paint requests (opaque
full-window content included) the input region is still empty and no
screen pixel is delivered pointer input. -/
theorem paint_preserves_clickthrough (cfg : ServerConfig)
    (junk : VisualInfo) (extra : List Req) (h : cfg.shapeExtension = true)
    (hextra : ∀ r ∈ extra, isPaintReq r = true) :
    (∀ s : SState, ∀ r : Req, isPaintReq r = true →
        (applyReq s r).window.map WindowState.inputShape
          = s.window.map WindowState.inputShape) ∧
    (run (initState cfg) (mainTrace cfg junk ++ extra)).window.map
        WindowState.inputShape = some (some emptyRegion) ∧
    (∀ px py, (run (initState cfg)
        (mainTrace cfg junk ++ extra)).acceptsInput px py = false) := by
  have hfin : (run (initState cfg) (mainTrace cfg junk ++ extra)).window.map
      WindowState.inputShape = some (some emptyRegion) := by
    have hsplit : run (initState cfg) (mainTrace cfg junk ++ extra)
        = run (finalState cfg junk) extra := by
      simp [run, finalState, List.foldl_append]
    rw [hsplit, run_paint_inputShape extra hextra (finalState cfg junk)]
    exact finalState_inputShape cfg junk h
  exact ⟨fun s r hr => applyReq_paint_inputShape s r hr, hfin,
    fun px py => acceptsInput_of_empty _ hfin px py⟩

/-! Witnesses: each theorem with a hypothesis, applied at a concrete
server environment. -/

/-- C7 has no hypothesis; C9, C10, C8 likewise. Witness for C1 at a
concrete server, with an opaque full-window red fill as the extra paint
batch. -/
theorem paint_preserves_clickthrough_witness :
    (demoConfig.shapeExtension = true ∧
      (∀ r ∈ demoExtra, isPaintReq r = true)) ∧
    ((∀ s : SState, ∀ r : Req, isPaintReq r = true →
        (applyReq s r).window.map WindowState.inputShape
          = s.window.map WindowState.inputShape) ∧
    (run (initState demoConfig) (mainTrace demoConfig demoJunk
        ++ demoExtra)).window.map WindowState.inputShape
      = some (some emptyRegion) ∧
    (∀ px py, (run (initState demoConfig) (mainTrace demoConfig demoJunk
        ++ demoExtra)).acceptsInput px py = false)) :=
  ⟨⟨rfl, by decide⟩,
    paint_preserves_clickthrough demoConfig demoJunk demoExtra rfl
      (by decide)⟩

/-- Witness for C2 at a concrete server. -/
theorem setClickThrough_input_kind_only_witness :
    demoConfig.shapeExtension = true ∧
    ((∀ s : SState, (setClickThrough s).window.map WindowState.boundingShape
        = s.window.map WindowState.boundingShape) ∧
    (afterClickThrough demoConfig demoJunk).window.map WindowState.inputShape
      = some (some emptyRegion) ∧
    (afterClickThrough demoConfig demoJunk).window.map
        WindowState.boundingShape = some none ∧
    (∀ px py, (afterClickThrough demoConfig demoJunk).visibleAt px py
        = rectContains (geomOf demoConfig) px py) ∧
    (∀ px py, (afterClickThrough demoConfig demoJunk).acceptsInput px py
        = false)) :=
  ⟨rfl, setClickThrough_input_kind_only demoConfig demoJunk rfl⟩

/-- Witness for C3 at a server whose only visual is 24-bit. -/
theorem missing_visual_check_witness :
    XMatchVisualInfo demoNoVisual 32 TrueColor = none ∧
    (vinfoAfterMatch demoNoVisual demoJunk = demoJunk ∧
    colormapOf demoNoVisual demoJunk = junkColormap demoJunk ∧
    (mainTrace demoNoVisual demoJunk)[1]?
      = some (Req.createWindow (xPos demoNoVisual) yPos width height 0
          demoJunk.depth InputOutput demoJunk.visualID valuemask
          (attrsOf demoNoVisual demoJunk)) ∧
    (mainTrace demoNoVisual demoJunk).length = 20) :=
  ⟨rfl, missing_visual_check demoNoVisual demoJunk rfl⟩

/-- Witness for C4 at a server without the shape extension. -/
theorem missing_shape_extension_check_witness :
    demoNoShape.shapeExtension = false ∧
    ((mainTrace demoNoShape demoJunk)[11]? = some (Req.printLine msgApplied) ∧
    (mainTrace demoNoShape demoJunk)[14]?
      = some (Req.fillRectangle 0 0 width height) ∧
    (finalState demoNoShape demoJunk).window.map WindowState.mapped
      = some true ∧
    (finalState demoNoShape demoJunk).window.map WindowState.inputShape
      = some none ∧
    (finalState demoNoShape demoJunk).acceptsInput (xPos demoNoShape) 50
      = true) :=
  ⟨rfl, missing_shape_extension_check demoNoShape demoJunk rfl⟩

/-- Witness for C5 at a concrete server. -/
theorem setup_phases_forward_witness :
    demoConfig.shapeExtension = true ∧
    (phasesAlong demoConfig demoJunk = expectedPhases ∧
    List.Pairwise (fun a b => phaseIdx a ≤ phaseIdx b)
      (phasesAlong demoConfig demoJunk) ∧
    (mainTrace demoConfig demoJunk)[3]? = some Req.mapWindow ∧
    (mainTrace demoConfig demoJunk)[7]? = some (Req.sleepSecs 1) ∧
    (mainTrace demoConfig demoJunk)[9]?
      = some (Req.shapeCombineMask ShapeInput 0 0 XNone ShapeSet)) :=
  ⟨rfl, setup_phases_forward demoConfig demoJunk rfl⟩

/-- Witness for C6 at a concrete server exposing a 32-bit true-color
visual. -/
theorem createWindow_attributes_witness :
    XMatchVisualInfo demoConfig 32 TrueColor = some demoVisual ∧
    (demoVisual.depth = 32 ∧ demoVisual.visualClass = TrueColor ∧
    attrsOf demoConfig demoJunk = expectedAttrs demoVisual ∧
    alphaByte (attrsOf demoConfig demoJunk).background_pixel = 0 ∧
    createWindowReq demoConfig demoJunk
      = Req.createWindow (xPos demoConfig) yPos width height 0
          demoVisual.depth InputOutput demoVisual.visualID valuemask
          (attrsOf demoConfig demoJunk) ∧
    valuemask.testBit 13 = true ∧ valuemask.testBit 1 = true ∧
    valuemask.testBit 3 = true ∧ valuemask.testBit 9 = true) :=
  ⟨rfl, createWindow_attributes demoConfig demoJunk demoVisual rfl⟩

end Clickthrough
